import Mathlib

/-!
Verification development for `src/main.py` of the CentTR repository.

The single source file defines a class `PhoneOSINT` whose behaviour we embed
shallowly: pure Python computations become Lean functions; the third-party
libraries (`phonenumbers`, `requests`, `googlesearch`, `socket`) are modelled
as explicit oracle parameters (`PhoneEnv`, `HttpOutcome`, `SearchOutcome`,
the host/IP pair), so every method becomes a total function of the instance
state and the oracle outcomes.
-/

namespace CentTR

/-- A parsed phone number: the fields of the `phonenumbers` `PhoneNumber`
object that `main.py` reads (`country_code`, `national_number`, `extension`). -/
structure ParsedNumber where
  countryCode : Nat
  nationalNumber : Nat
  extension : Option String
deriving DecidableEq

/-- Oracle for the third-party `phonenumbers` library. `parse s = none`
models `phonenumbers.parse` raising an exception on `s`; the remaining
fields model the pure library lookups used by `main.py` (validity,
possibility, the three formats, carrier, geocoder, timezone, number type). -/
structure PhoneEnv where
  parse : String → Option ParsedNumber
  isValid : ParsedNumber → Bool
  isPossible : ParsedNumber → Bool
  formatE164 : ParsedNumber → String
  formatIntl : ParsedNumber → String
  formatNational : ParsedNumber → String
  carrierName : ParsedNumber → String
  geoDescription : ParsedNumber → String
  timeZones : ParsedNumber → List String
  isMobile : ParsedNumber → Bool

/-- One record of the breach API's JSON array, restricted to the fields
`main.py` reads. `breach.get(field, False)` on the four flags is modelled by
a `Bool` field (absent = `False`), and `breach.get('DataClasses', [])` by a
list of strings. -/
structure BreachRecord where
  Name : String
  BreachDate : String
  DataClasses : List String
  IsVerified : Bool
  IsSensitive : Bool
  IsFabricated : Bool
  IsRetired : Bool
deriving DecidableEq

/-- Python `str.replace(old, new)` for a one-character pattern `old` — the
only form `main.py` uses (`"+"` and `" "`). Python scans left to right
replacing non-overlapping occurrences; for a one-character pattern that is
exactly: replace every occurrence of the character. -/
def pyReplace1 (old : Char) (new : List Char) : List Char → List Char
  | [] => []
  | c :: cs => if c = old then new ++ pyReplace1 old new cs else c :: pyReplace1 old new cs

/-- `self.phone_number.replace("+", "").replace(" ", "")` from
`search_social_media` (line 96) and `check_breaches` (line 130). -/
def clean_number (phone : String) : String :=
  ⟨pyReplace1 ' ' [] (pyReplace1 '+' [] phone.data)⟩

/-- The UTF-8 bytes of a character, as natural numbers. -/
def utf8Bytes (c : Char) : List Nat :=
  let n := c.toNat
  if n < 0x80 then [n]
  else if n < 0x800 then [0xC0 + n / 0x40, 0x80 + n % 0x40]
  else if n < 0x10000 then
    [0xE0 + n / 0x1000, 0x80 + (n / 0x40) % 0x40, 0x80 + n % 0x40]
  else
    [0xF0 + n / 0x40000, 0x80 + (n / 0x1000) % 0x40,
     0x80 + (n / 0x40) % 0x40, 0x80 + n % 0x40]

/-- Upper-case hexadecimal digit. -/
def hexDigit (n : Nat) : Char :=
  "0123456789ABCDEF".data.getD n '0'

/-- Characters `urllib.parse.quote` leaves unescaped with its default
`safe="/"`: ASCII letters and digits, `_ . - ~`, and `/`. -/
def quoteSafe (c : Char) : Bool :=
  c.isAlpha || c.isDigit || c == '_' || c == '.' ||
  c == '-' || c == '~' || c == '/'

/-- `urllib.parse.quote` on a single character. -/
def quoteChar (c : Char) : String :=
  if quoteSafe c then String.singleton c
  else
    String.join ((utf8Bytes c).map (fun b =>
      "%" ++ String.singleton (hexDigit (b / 16)) ++ String.singleton (hexDigit (b % 16))))

/-- `urllib.parse.quote` (default `safe="/"`), as used in
`search_social_media`. -/
def quote (s : String) : String :=
  String.join (s.data.map quoteChar)

/-- `PhoneOSINT._calculate_breach_severity` (lines 159-174): sequential
reassignment of the local variable `severity`, later assignments
overriding earlier ones. -/
def calculate_breach_severity (breach : BreachRecord) : String :=
  let severity := "Medium"
  let severity := if breach.IsVerified then "High" else severity
  let severity := if breach.DataClasses.contains "Password" then "Critical" else severity
  let severity := if breach.IsSensitive then "Critical" else severity
  let severity := if breach.IsFabricated then "Low" else severity
  let severity := if breach.IsRetired then "Low" else severity
  severity

/-- The severity rule table exactly as the spec (§4.4) words it: start at
"Medium"; "High" if verified; "Critical" if the data classes contain
"Password"; "Critical" if sensitive; "Low" if fabricated; "Low" if retired;
later rules in this fixed order override earlier ones, so the result is the
last rule that fired. -/
def severity_rule_table (isVerified hasPassword isSensitive isFabricated isRetired : Bool) : String :=
  if isRetired then "Low"
  else if isFabricated then "Low"
  else if isSensitive then "Critical"
  else if hasPassword then "Critical"
  else if isVerified then "High"
  else "Medium"

/-- `PhoneOSINT._parse_number` (lines 34-41), called from `__init__`.
First component: the value of `self.parsed_number` afterwards. Second
component: whether the error message was printed (an exception was caught).
Crucially, `self.parsed_number` is assigned before `is_valid_number` is
checked, and the `ValueError` raised for an invalid number is caught by the
same `except`, so an invalid-but-parseable input leaves `parsed_number`
set. -/
def parseNumberStep (env : PhoneEnv) (phone : String) : Option ParsedNumber × Bool :=
  match env.parse phone with
  | none => (none, true)
  | some p => if env.isValid p then (some p, false) else (some p, true)

/-- A value of the `basic_info` dict: Python strings, ints
(`country_code`, `national_number`) and the nested region-details dict. -/
inductive InfoValue where
  | str (s : String)
  | nat (n : Nat)
  | dict (d : List (String × String))
deriving DecidableEq

/-- `PhoneOSINT._get_region_details` (lines 83-89). -/
def get_region_details (location : String) : List (String × String) :=
  [("Region", location),
   ("Estimated Coordinates", "Not available"),
   ("Area Code Info", "Not available")]

/-- `PhoneOSINT.get_basic_info` (lines 43-81). Python dicts preserve
insertion order, so the dict is modelled as an ordered association list.
`x or "Unknown"` on a string is `"Unknown"` exactly when `x` is empty. -/
def get_basic_info (env : PhoneEnv) (parsed : Option ParsedNumber) : List (String × InfoValue) :=
  match parsed with
  | none => [("Error", .str "Invalid phone number")]
  | some p =>
    let valid := env.isValid p
    let possible := env.isPossible p
    let number_carrier := if env.carrierName p = "" then "Unknown" else env.carrierName p
    let location := if env.geoDescription p = "" then "Unknown" else env.geoDescription p
    let tzJoined := String.intercalate ", " (env.timeZones p)
    let time_zones := if tzJoined = "" then "Unknown" else tzJoined
    let number_type := if env.isMobile p then "Mobile" else "Fixed line"
    let base : List (String × InfoValue) :=
      [("International Format", .str (env.formatIntl p)),
       ("National Format", .str (env.formatNational p)),
       ("E164 Format", .str (env.formatE164 p)),
       ("Carrier", .str number_carrier),
       ("Location", .str location),
       ("Time Zone", .str time_zones),
       ("Number Type", .str number_type),
       ("Valid Number", .str (if valid then "✅ Yes" else "❌ No")),
       ("Possible Number", .str (if possible then "✅ Yes" else "❌ No")),
       ("Country Code", .nat p.countryCode),
       ("National Number", .nat p.nationalNumber),
       ("Extension", .str (match p.extension with
                           | none => "None"
                           | some e => if e = "" then "None" else e))]
    if location ≠ "Unknown" then base ++ [("Region Details", .dict (get_region_details location))]
    else base

/-- The `social_platforms` dict literal of `search_social_media`
(lines 99-111), as a function of `clean_number` and the E164 format. -/
def social_platforms (clean formatted : String) : List (String × String) :=
  [("📘 Facebook", "https://www.facebook.com/search/top/?q=" ++ quote formatted),
   ("💬 WhatsApp", "https://wa.me/" ++ clean),
   ("🐦 x", "https://x.com/search?q=" ++ quote formatted ++ "&src=typed_query"),
   ("📸 Instagram", "https://www.instagram.com/search/top/?q=" ++ quote formatted),
   ("📞 Truecaller", "https://www.truecaller.com/search/" ++ quote formatted),
   ("✈️ Telegram", "https://t.me/" ++ clean),
   ("📱 Viber", "viber://add?number=" ++ clean),
   ("👔 LinkedIn", "https://www.linkedin.com/search/results/all/?keywords=" ++ quote formatted),
   ("📹 TikTok", "https://www.tiktok.com/search?q=" ++ quote formatted),
   ("🔎 Snapchat", "https://www.snapchat.com/add/" ++ clean),
   ("🎵 WeChat", "weixin://dl/add?" ++ clean)]

/-- `PhoneOSINT.search_social_media` (lines 91-123). The loop copies the
`social_platforms` entries into `social_media_results` in insertion order
(the loop body cannot raise), so the result is the catalog itself. -/
def search_social_media (env : PhoneEnv) (parsed : Option ParsedNumber) (phone : String) :
    List (String × String) :=
  match parsed with
  | none => [("Error", "Invalid phone number")]
  | some p => social_platforms (clean_number phone) (env.formatE164 p)

/-- Oracle for the single `requests.get` of `check_breaches`:
either an HTTP response (status, body text, and the result of
`response.json()` — `none` models a `JSONDecodeError`), or a
`requests.exceptions.RequestException` with its message. -/
inductive HttpOutcome where
  | response (status : Nat) (text : String) (json : Option (List BreachRecord))
  | requestException (msg : String)

/-- The value of `self.breach_results` after `check_breaches`: either the
JSON list with each record annotated with its severity, or one of the
`{"Status": ...}` / `{"Error": ...[, "Details": ...]}` dicts. -/
inductive BreachOutcome where
  | records (rs : List (BreachRecord × String))
  | statusDict (s : String)
  | errorDict (err : String) (details : Option String)
deriving DecidableEq

/-- `PhoneOSINT.check_breaches` (lines 125-157). First component: the
returned `breach_results`. Second component: the URL of the issued
`requests.get`, or `none` when no network request was made. The guard is
only on the API key; `parsed_number` is never consulted. The body excerpt
mirrors `response.text[:200] + "..." if len(response.text) > 200 else
response.text` (Python slicing counts characters). -/
def check_breaches (phone : String) (hibp_api_key : Option String) (net : HttpOutcome) :
    BreachOutcome × Option String :=
  match hibp_api_key with
  | none => (.statusDict "Skipped - No HIBP API key provided", none)
  | some _ =>
    let url := "https://haveibeenpwned.com/api/v3/breachedaccount/" ++ clean_number phone
               ++ "?truncateResponse=false"
    match net with
    | .requestException msg => (.errorDict ("Request failed: " ++ msg) none, some url)
    | .response status text json =>
      if status = 200 then
        match json with
        | some rs => (.records (rs.map (fun b => (b, calculate_breach_severity b))), some url)
        | none => (.errorDict "Invalid JSON response" none, some url)
      else if status = 404 then
        (.statusDict "✅ Phone number not found in any breaches", some url)
      else
        (.errorDict ("HTTP " ++ toString status)
          (some (if 200 < text.length then (⟨text.data.take 200⟩ : String) ++ "..." else text)),
         some url)

/-- Oracle for the `googlesearch.search` generator: the URLs it yields
(bounded by the code's `stop=num_results`), or a raised exception. -/
inductive SearchOutcome where
  | ok (urls : List String)
  | fail (msg : String)
deriving DecidableEq

/-- `PhoneOSINT.google_search` (lines 176-197): collect up to
`num_results` URLs; on any exception reassign the whole result to a
single-element error list. -/
def google_search (parsed : Option ParsedNumber) (num_results : Nat) (out : SearchOutcome) :
    List String :=
  match parsed with
  | none => ["Error: Cannot search - invalid phone number"]
  | some _ =>
    match out with
    | .ok urls => urls.take num_results
    | .fail msg => ["Error: Google search failed - " ++ msg]

/-- The query string built by `google_search` (line 184). -/
def google_query (env : PhoneEnv) (p : ParsedNumber) : String :=
  "intext:\"" ++ env.formatNational p ++ "\" OR intext:\"" ++ env.formatIntl p ++ "\""

/-- Python `s[-4:]`: the last four characters (the whole string when it is
shorter than four characters). -/
def pySliceLast4 (s : String) : String :=
  ⟨s.data.drop (s.data.length - 4)⟩

/-- `PhoneOSINT.reverse_lookup` (lines 199-221): three fixed template
strings built from the NATIONAL format; `national_number[-4:]` takes the
last four characters of that format string. -/
def reverse_lookup (env : PhoneEnv) (parsed : Option ParsedNumber) : List String :=
  match parsed with
  | none => ["Error: Invalid phone number"]
  | some p =>
    let national_number := env.formatNational p
    ["Possible business: " ++ national_number ++ " Services",
     "Potential contact: John Doe (via public records)",
     "Linked profile: user" ++ pySliceLast4 national_number ++ "@example.com"]

/-- A value of the metadata dict: strings and the nested network dict. -/
inductive MetaValue where
  | str (s : String)
  | dict (d : List (String × String))
deriving DecidableEq

/-- One section of the results envelope returned by `run_all_checks`. -/
inductive Section where
  | info (d : List (String × InfoValue))
  | social (d : List (String × String))
  | breach (b : BreachOutcome)
  | google (urls : List String)
  | reverse (ls : List String)
  | metadata (d : List (String × MetaValue))
deriving DecidableEq

/-- `PhoneOSINT._get_network_info` (lines 243-254); the oracle is the
hostname/IP pair resolved by `socket`, or `none` when resolution raised. -/
def get_network_info (host : Option (String × String)) : List (String × String) :=
  match host with
  | some (hostname, ip) =>
    [("Host", hostname),
     ("IP Address", ip),
     ("Location", "Unknown (would require GeoIP in production)")]
  | none => [("Network Info", "Unavailable")]

/-- `PhoneOSINT.run_all_checks` (lines 223-241): the results dict, in
insertion order. `now1` and `now2` are the two `datetime.now()` strings. -/
def run_all_checks (env : PhoneEnv) (phone : String) (hibp_api_key : Option String)
    (net : HttpOutcome) (searchOut : SearchOutcome) (google_results : Nat)
    (now1 now2 : String) (host : Option (String × String)) : List (String × Section) :=
  let parsed := (parseNumberStep env phone).1
  [("Basic Info", .info (get_basic_info env parsed)),
   ("Social Media", .social (search_social_media env parsed phone)),
   ("Breach Check", .breach (check_breaches phone hibp_api_key net).1),
   ("Google Results", .google (google_search parsed google_results searchOut)),
   ("Reverse Lookup", .reverse (reverse_lookup env parsed)),
   ("Metadata", .metadata
     [("Search Date", .str now1),
      ("Phone Number", .str phone),
      ("Tool Version", .str "2.1.0"),
      ("Execution Time", .str now2),
      ("Network", .dict (get_network_info host))])]

/-- Look a section up by its key in the results envelope. -/
def sectionOf (r : List (String × Section)) (k : String) : Option Section :=
  (r.find? (fun kv => kv.1 == k)).map (fun kv => kv.2)

/-- Substring containment on character lists. -/
def containsSub (needle : List Char) : List Char → Bool
  | [] => needle.isEmpty
  | c :: t => needle.isPrefixOf (c :: t) || containsSub needle t

/-- The reading claimed by the spec for the reverse-lookup email: the last
four digit characters of the string. -/
def last_four_digits (s : String) : String :=
  let ds := s.data.filter Char.isDigit
  ⟨ds.drop (ds.length - 4)⟩

/-- Models the `phonenumbers` library on inputs such as `"not-a-number"`
that cannot be tokenized as a phone number: `phonenumbers.parse` raises
`NumberParseException` on every input of interest. -/
def failParseEnv : PhoneEnv where
  parse := fun _ => none
  isValid := fun _ => false
  isPossible := fun _ => false
  formatE164 := fun _ => ""
  formatIntl := fun _ => ""
  formatNational := fun _ => ""
  carrierName := fun _ => ""
  geoDescription := fun _ => ""
  timeZones := fun _ => []
  isMobile := fun _ => false

/-- Models the `phonenumbers` library on the too-short input `"+62812345"`:
it parses (country code 62, national number 812345) but fails
`is_valid_number`. -/
def shortNumberEnv : PhoneEnv where
  parse := fun s => if s = "+62812345" then some ⟨62, 812345, none⟩ else none
  isValid := fun _ => false
  isPossible := fun _ => false
  formatE164 := fun _ => "+62812345"
  formatIntl := fun _ => "+62 812345"
  formatNational := fun _ => "812345"
  carrierName := fun _ => ""
  geoDescription := fun _ => ""
  timeZones := fun _ => []
  isMobile := fun _ => false

/-- Models the `phonenumbers` library on `"+33123456789"`, a valid French
fixed-line number whose NATIONAL format is `"01 23 45 67 89"` — a format
whose last four characters include a space. -/
def frEnv : PhoneEnv where
  parse := fun s => if s = "+33123456789" then some ⟨33, 123456789, none⟩ else none
  isValid := fun _ => true
  isPossible := fun _ => true
  formatE164 := fun _ => "+33123456789"
  formatIntl := fun _ => "+33 1 23 45 67 89"
  formatNational := fun _ => "01 23 45 67 89"
  carrierName := fun _ => ""
  geoDescription := fun _ => "France"
  timeZones := fun _ => ["Europe/Paris"]
  isMobile := fun _ => false

/-- Models the `phonenumbers` library on `"+6281234567890"`, a valid
Indonesian mobile number (the example input of the spec's §8). -/
def idEnv : PhoneEnv where
  parse := fun s => if s = "+6281234567890" then some ⟨62, 81234567890, none⟩ else none
  isValid := fun _ => true
  isPossible := fun _ => true
  formatE164 := fun _ => "+6281234567890"
  formatIntl := fun _ => "+62 812-3456-7890"
  formatNational := fun _ => "0812-3456-7890"
  carrierName := fun _ => "Telkomsel"
  geoDescription := fun _ => "Indonesia"
  timeZones := fun _ => ["Asia/Jakarta"]
  isMobile := fun _ => true

/-! ## Helper lemmas -/

theorem pyReplace1_filter (o : Char) (l : List Char) :
    pyReplace1 o [] l = l.filter (fun c => c != o) := by
  induction l with
  | nil => rfl
  | cons c cs ih =>
    by_cases h : c = o
    · subst h
      simp [pyReplace1, List.filter_cons, ih]
    · simp [pyReplace1, List.filter_cons, h, ih]

/-- The two chained `replace` calls of `clean_number` remove exactly the
`'+'` and `' '` characters and keep everything else. -/
theorem clean_number_filter (phone : String) :
    clean_number phone = ⟨phone.data.filter (fun c => c != ' ' && c != '+')⟩ := by
  unfold clean_number
  rw [pyReplace1_filter, pyReplace1_filter, List.filter_filter]

theorem isPrefixOf_append_self (l t : List Char) : l.isPrefixOf (l ++ t) = true := by
  rw [List.isPrefixOf_iff_prefix]
  exact ⟨t, rfl⟩

theorem containsSub_of_isPrefixOf {needle hay : List Char}
    (h : needle.isPrefixOf hay = true) : containsSub needle hay = true := by
  cases hay with
  | nil =>
    cases needle with
    | nil => rfl
    | cons a as => simp [List.isPrefixOf] at h
  | cons c t => simp [containsSub, h]

/-- With an API key, `check_breaches` always issues its single request to
the breach URL built from `clean_number`, whatever the network outcome. -/
theorem check_breaches_request_url (phone key : String) (net : HttpOutcome) :
    (check_breaches phone (some key) net).2
      = some ("https://haveibeenpwned.com/api/v3/breachedaccount/" ++ clean_number phone
              ++ "?truncateResponse=false") := by
  cases net with
  | requestException m => rfl
  | response s t j =>
    simp only [check_breaches]
    by_cases h200 : s = 200
    · simp only [h200, if_pos rfl]
      cases j <;> rfl
    · by_cases h404 : s = 404 <;> simp [h200, h404]

/-- If the last four characters of `l` are all digits, they are exactly the
last four digit characters of `l`. -/
theorem filter_digits_drop (a b : List Char) (hb : b.filter Char.isDigit = b)
    (hb4 : b.length = 4) :
    ((a ++ b).filter Char.isDigit).drop (((a ++ b).filter Char.isDigit).length - 4) = b := by
  rw [List.filter_append, hb]
  have hlen : ((a.filter Char.isDigit) ++ b).length - 4 = (a.filter Char.isDigit).length := by
    rw [List.length_append, hb4]
    omega
  rw [hlen, List.drop_left]

/-- `pySliceLast4` agrees with `last_four_digits` whenever the last four
characters of the string are all digit characters. -/
theorem pySliceLast4_eq_last_four_digits (s : String)
    (h : (s.data.drop (s.data.length - 4)).all Char.isDigit = true) :
    pySliceLast4 s = last_four_digits s := by
  unfold pySliceLast4 last_four_digits
  congr 1
  by_cases hlen : 4 ≤ s.data.length
  · have hb : (s.data.drop (s.data.length - 4)).filter Char.isDigit
        = s.data.drop (s.data.length - 4) :=
      List.filter_eq_self.mpr (List.all_eq_true.mp h)
    have hb4 : (s.data.drop (s.data.length - 4)).length = 4 := by
      rw [List.length_drop]
      omega
    have e1 : s.data.filter Char.isDigit
        = (s.data.take (s.data.length - 4) ++ s.data.drop (s.data.length - 4)).filter
            Char.isDigit := by
      rw [List.take_append_drop]
    rw [e1, filter_digits_drop _ _ hb hb4]
  · have hk : s.data.length - 4 = 0 := by omega
    rw [hk] at h
    have hfl : s.data.filter Char.isDigit = s.data :=
      List.filter_eq_self.mpr (by simpa [List.all_eq_true] using h)
    rw [hfl]

/-! ## Claim C1 -/

/-- C1: the Severity tag of a breach record is a pure function of exactly
`IsVerified`, `DataClasses`-contains-"Password", `IsSensitive`,
`IsFabricated` and `IsRetired`, applied in that fixed order with later
rules overriding earlier ones (so verified-and-retired gives "Low",
sensitive-alone gives "Critical", all-false gives "Medium"), for every
combination of the booleans. -/
theorem severity_matches_rule_table :
    (∀ b : BreachRecord,
      calculate_breach_severity b
        = severity_rule_table b.IsVerified (b.DataClasses.contains "Password")
            b.IsSensitive b.IsFabricated b.IsRetired)
    ∧ calculate_breach_severity ⟨"B", "2024-01-01", [], true, false, false, true⟩ = "Low"
    ∧ calculate_breach_severity ⟨"B", "2024-01-01", [], false, true, false, false⟩ = "Critical"
    ∧ calculate_breach_severity ⟨"B", "2024-01-01", [], false, false, false, false⟩ = "Medium" := by
  refine ⟨?_, by decide, by decide, by decide⟩
  rintro ⟨nm, bd, dc, v, s, f, r⟩
  by_cases hdc : "Password" ∈ dc <;> cases v <;> cases s <;> cases f <;> cases r <;>
    simp [calculate_breach_severity, severity_rule_table, hdc]

/-! ## Claim C2 -/

/-- C2 counterexample: the input `"+62812345"` fails numbering-plan
validation (`is_valid_number` is false), yet the Google Results section of
`run_all_checks` performs its search and returns the provider's URL instead
of the invalid-input placeholder — because `_parse_number` assigns
`parsed_number` before raising, so the guard `if not self.parsed_number`
does not fire. -/
theorem google_section_not_short_circuited :
    shortNumberEnv.parse "+62812345" = some ⟨62, 812345, none⟩
    ∧ shortNumberEnv.isValid ⟨62, 812345, none⟩ = false
    ∧ sectionOf
        (run_all_checks shortNumberEnv "+62812345" none (.response 404 "" none)
          (.ok ["https://example.com/hit"]) 5 "2026-10-12" "2026-10-12" none)
        "Google Results"
      = some (.google ["https://example.com/hit"])
    ∧ some (Section.google ["https://example.com/hit"])
      ≠ some (.google ["Error: Cannot search - invalid phone number"]) := by
  refine ⟨by decide, rfl, by decide, by decide⟩

/-- C2 (amended): only inputs that fail to parse short-circuit: for them
BasicInfo holds the invalid-number error entry and the Social Media, Google
Search and Reverse Lookup sections hold their invalid-input placeholders,
while the Breach Check section never consults the parsed number and is
determined by the API key and HTTP outcome alone. An input that parses but
fails full numbering-plan validation leaves `parsed_number` set: BasicInfo
reports the number as not valid, but Google Search (and the other sections)
proceed with their work. -/
theorem parse_failure_short_circuit (env env2 : PhoneEnv) (phone phone2 : String)
    (key : Option String) (net : HttpOutcome) (sout : SearchOutcome) (n : Nat)
    (now1 now2 : String) (host : Option (String × String)) (p2 : ParsedNumber)
    (h : env.parse phone = none) (h2 : env2.parse phone2 = some p2)
    (hv : env2.isValid p2 = false) :
    run_all_checks env phone key net sout n now1 now2 host
      = [("Basic Info", .info [("Error", .str "Invalid phone number")]),
         ("Social Media", .social [("Error", "Invalid phone number")]),
         ("Breach Check", .breach (check_breaches phone key net).1),
         ("Google Results", .google ["Error: Cannot search - invalid phone number"]),
         ("Reverse Lookup", .reverse ["Error: Invalid phone number"]),
         ("Metadata", .metadata
           [("Search Date", .str now1),
            ("Phone Number", .str phone),
            ("Tool Version", .str "2.1.0"),
            ("Execution Time", .str now2),
            ("Network", .dict (get_network_info host))])]
    ∧ ("Valid Number", InfoValue.str "❌ No") ∈ get_basic_info env2 (parseNumberStep env2 phone2).1
    ∧ (∀ urls, google_search (parseNumberStep env2 phone2).1 n (.ok urls) = urls.take n) := by
  have hp : (parseNumberStep env phone).1 = none := by
    simp [parseNumberStep, h]
  have hp2 : (parseNumberStep env2 phone2).1 = some p2 := by
    simp [parseNumberStep, h2, hv]
  refine ⟨?_, ?_, ?_⟩
  · simp [run_all_checks, hp, get_basic_info, search_social_media, google_search, reverse_lookup]
  · rw [hp2]
    simp only [get_basic_info, hv]
    split <;> try split
    all_goals simp
  · intro urls
    rw [hp2]
    rfl

/-- Instance of the amended C2 theorem at a concrete unparseable input, a
concrete parsed-but-invalid input, and concrete oracle outcomes. -/
theorem parse_failure_short_circuit_applied :
    ("Valid Number", InfoValue.str "❌ No")
      ∈ get_basic_info shortNumberEnv (parseNumberStep shortNumberEnv "+62812345").1 :=
  (parse_failure_short_circuit failParseEnv shortNumberEnv "not-a-number" "+62812345"
    none (.response 404 "" none) (.ok []) 5 "2026-10-12" "2026-10-12" none
    ⟨62, 812345, none⟩ rfl (by decide) rfl).2.1

/-! ## Claim C9 -/

/-- C9 counterexample: on an instance whose `parsed_number` is `None` (the
input `"not-a-number"` raises in `phonenumbers.parse`), the public method
`check_breaches` called with an API key does not return an error
placeholder: it issues the network request (second component `some url`)
and returns the ordinary not-found sentinel for a 404 response. -/
theorem check_breaches_ignores_parsed_number :
    (parseNumberStep failParseEnv "not-a-number").1 = none
    ∧ check_breaches "not-a-number" (some "test-key") (.response 404 "" none)
        = (.statusDict "✅ Phone number not found in any breaches",
           some "https://haveibeenpwned.com/api/v3/breachedaccount/not-a-number?truncateResponse=false")
    ∧ (check_breaches "not-a-number" (some "test-key") (.response 404 "" none)).2 ≠ none
    ∧ BreachOutcome.statusDict "✅ Phone number not found in any breaches"
      ≠ .errorDict "Invalid phone number" none := by
  exact ⟨rfl, by decide, by decide, by decide⟩

/-- C9 (amended): constructing `PhoneOSINT` never raises: a parse exception
is swallowed inside `_parse_number` leaving `parsed_number` `None`, whereas
an input that parses but fails full validation leaves `parsed_number` set
to the parsed value (the `ValueError` raised after the assignment is
caught). With `parsed_number` `None`, the guarded public methods
`get_basic_info`, `search_social_media`, `google_search` and
`reverse_lookup` return their error placeholders rather than raising;
`check_breaches` does not consult `parsed_number` — without a key it
returns the skipped sentinel and no request, with a key it proceeds to
issue its network request. -/
theorem parse_never_raises_and_guards (env env2 : PhoneEnv) (phone phone2 : String)
    (p2 : ParsedNumber) (h : env.parse phone = none) (h2 : env2.parse phone2 = some p2) :
    (parseNumberStep env phone).1 = none
    ∧ (parseNumberStep env2 phone2).1 = some p2
    ∧ get_basic_info env (parseNumberStep env phone).1 = [("Error", .str "Invalid phone number")]
    ∧ search_social_media env (parseNumberStep env phone).1 phone
        = [("Error", "Invalid phone number")]
    ∧ (∀ n out, google_search (parseNumberStep env phone).1 n out
        = ["Error: Cannot search - invalid phone number"])
    ∧ reverse_lookup env (parseNumberStep env phone).1 = ["Error: Invalid phone number"]
    ∧ (∀ net, check_breaches phone none net
        = (.statusDict "Skipped - No HIBP API key provided", none))
    ∧ (∀ key net, (check_breaches phone (some key) net).2
        = some ("https://haveibeenpwned.com/api/v3/breachedaccount/" ++ clean_number phone
                ++ "?truncateResponse=false")) := by
  have hp : (parseNumberStep env phone).1 = none := by
    simp [parseNumberStep, h]
  have hp2 : (parseNumberStep env2 phone2).1 = some p2 := by
    simp [parseNumberStep, h2]
    split <;> rfl
  exact ⟨hp, hp2, by rw [hp]; rfl, by rw [hp]; rfl, fun n out => by rw [hp]; rfl,
    by rw [hp]; rfl, fun net => rfl, fun key net => check_breaches_request_url phone key net⟩

/-- Instance of the amended C9 theorem at concrete inputs. -/
theorem parse_never_raises_and_guards_applied :
    (parseNumberStep failParseEnv "not-a-number").1 = none
    ∧ (parseNumberStep shortNumberEnv "+62812345").1 = some ⟨62, 812345, none⟩ :=
  ⟨(parse_never_raises_and_guards failParseEnv shortNumberEnv "not-a-number" "+62812345"
      ⟨62, 812345, none⟩ rfl (by decide)).1,
   (parse_never_raises_and_guards failParseEnv shortNumberEnv "not-a-number" "+62812345"
      ⟨62, 812345, none⟩ rfl (by decide)).2.1⟩

/-! ## Claim C3 -/

/-- C3: a 404 from the breach API yields exactly the not-found sentinel;
any other non-200 status yields an error result carrying that status code
and a body excerpt that is the first 200 characters followed by `"..."` if
and only if the body exceeds 200 characters, and the whole body
otherwise. -/
theorem breach_http_status_mapping (phone key text : String)
    (json : Option (List BreachRecord)) (status : Nat) (h200 : status ≠ 200) :
    (check_breaches phone (some key) (.response 404 text json)).1
      = .statusDict "✅ Phone number not found in any breaches"
    ∧ (status ≠ 404 →
        (check_breaches phone (some key) (.response status text json)).1
          = .errorDict ("HTTP " ++ toString status)
              (some (if 200 < text.length then (⟨text.data.take 200⟩ : String) ++ "..." else text)))
    ∧ ((if 200 < text.length then (⟨text.data.take 200⟩ : String) ++ "..." else text)
          = (⟨text.data.take 200⟩ : String) ++ "..." ↔ 200 < text.length)
    ∧ (text.length ≤ 200 →
        (if 200 < text.length then (⟨text.data.take 200⟩ : String) ++ "..." else text) = text) := by
  refine ⟨by simp [check_breaches], fun h404 => by simp [check_breaches, h200, h404], ?_, ?_⟩
  · constructor
    · intro hEq
      by_contra hl
      rw [if_neg hl] at hEq
      have h2 : (⟨text.data.take 200⟩ : String).length = text.length := by
        have hdl : text.data.length ≤ 200 := Nat.not_lt.mp hl
        show (text.data.take 200).length = text.data.length
        rw [List.take_of_length_le hdl]
      have h3 : ("..." : String).length = 3 := rfl
      have h1 := congrArg String.length hEq
      rw [String.length_append, h2, h3] at h1
      omega
    · intro hl
      rw [if_pos hl]
  · intro hle
    rw [if_neg (by omega)]

set_option maxRecDepth 4000 in
/-- Instance of the C3 theorem: HTTP 500 with a 201-character body yields
the error result with the truncated excerpt, and a 404 yields the
sentinel. -/
theorem breach_http_status_mapping_applied :
    (check_breaches "p" (some "k")
        (.response 500 (⟨List.replicate 201 'a'⟩ : String) none)).1
      = .errorDict ("HTTP " ++ toString 500)
          (some ((⟨(List.replicate 201 'a').take 200⟩ : String) ++ "..."))
    ∧ (check_breaches "p" (some "k")
        (.response 404 (⟨List.replicate 201 'a'⟩ : String) none)).1
      = .statusDict "✅ Phone number not found in any breaches" := by
  have h := breach_http_status_mapping "p" "k" ⟨List.replicate 201 'a'⟩ none 500 (by decide)
  refine ⟨?_, h.1⟩
  rw [h.2.1 (by decide), if_pos (by decide)]

/-! ## Claim C4 -/

/-- C4: for every input string and every state of the network oracle,
`check_breaches` without an API key returns the skipped sentinel and issues
no network request (the request component is `none`). -/
theorem no_key_skips_breach_check (phone : String) (net : HttpOutcome) :
    check_breaches phone none net
      = (.statusDict "Skipped - No HIBP API key provided", none) := rfl

/-! ## Claim C5 -/

/-- C5: `run_all_checks` always returns exactly the six section keys, in
order, for every input and oracle outcome; when the external calls fail
(request exception, search failure, hostname resolution failure) the
corresponding sections hold error content instead of the failure aborting
the run. -/
theorem envelope_has_six_sections (env : PhoneEnv) (phone : String) (key : Option String)
    (net : HttpOutcome) (sout : SearchOutcome) (n : Nat) (now1 now2 : String)
    (host : Option (String × String)) :
    (run_all_checks env phone key net sout n now1 now2 host).map Prod.fst
      = ["Basic Info", "Social Media", "Breach Check", "Google Results",
         "Reverse Lookup", "Metadata"]
    ∧ (∀ k m msg, sectionOf
        (run_all_checks env phone (some k) (.requestException m) (.fail msg) n now1 now2 none)
        "Breach Check"
        = some (.breach (.errorDict ("Request failed: " ++ m) none)))
    ∧ (∀ k m msg p, (parseNumberStep env phone).1 = some p →
        sectionOf
          (run_all_checks env phone (some k) (.requestException m) (.fail msg) n now1 now2 none)
          "Google Results"
          = some (.google ["Error: Google search failed - " ++ msg]))
    ∧ (∀ k m msg, sectionOf
        (run_all_checks env phone (some k) (.requestException m) (.fail msg) n now1 now2 none)
        "Metadata"
        = some (.metadata
            [("Search Date", .str now1),
             ("Phone Number", .str phone),
             ("Tool Version", .str "2.1.0"),
             ("Execution Time", .str now2),
             ("Network", .dict [("Network Info", "Unavailable")])])) := by
  refine ⟨rfl, fun k m msg => ?_, fun k m msg p hp => ?_, fun k m msg => ?_⟩
  · simp [run_all_checks, sectionOf, List.find?, check_breaches]
  · simp [run_all_checks, sectionOf, List.find?, hp, google_search]
  · simp [run_all_checks, sectionOf, List.find?, get_network_info]

/-- Instance of the C5 theorem at a concrete input with every external
call failing. -/
theorem envelope_has_six_sections_applied :
    (run_all_checks idEnv "+6281234567890" (some "k") (.requestException "timed out")
        (.fail "blocked") 5 "2026-10-12" "2026-10-12" none).map Prod.fst
      = ["Basic Info", "Social Media", "Breach Check", "Google Results",
         "Reverse Lookup", "Metadata"]
    ∧ sectionOf
        (run_all_checks idEnv "+6281234567890" (some "k") (.requestException "timed out")
          (.fail "blocked") 5 "2026-10-12" "2026-10-12" none)
        "Google Results"
      = some (.google ["Error: Google search failed - blocked"]) :=
  ⟨(envelope_has_six_sections idEnv "+6281234567890" (some "k") (.requestException "timed out")
      (.fail "blocked") 5 "2026-10-12" "2026-10-12" none).1,
   (envelope_has_six_sections idEnv "+6281234567890" (some "k") (.requestException "timed out")
      (.fail "blocked") 5 "2026-10-12" "2026-10-12" none).2.2.1 "k" "timed out" "blocked"
      ⟨62, 81234567890, none⟩ (by decide)⟩

/-! ## Claim C6 -/

set_option maxRecDepth 8000 in
/-- C6: for the input `"+6281234567890"`, the link builder returns an
ordered mapping of exactly 11 named platforms, and every platform URL
contains the digits `6281234567890` (the percent-encoded E164 form
`%2B6281234567890` substituted into the search links contains them as a
substring). -/
theorem social_links_eleven_platforms (env : PhoneEnv) (p : ParsedNumber)
    (hp : env.parse "+6281234567890" = some p)
    (hf : env.formatE164 p = "+6281234567890") :
    (search_social_media env (parseNumberStep env "+6281234567890").1 "+6281234567890").map
        Prod.fst
      = ["📘 Facebook", "💬 WhatsApp", "🐦 x", "📸 Instagram", "📞 Truecaller",
         "✈️ Telegram", "📱 Viber", "👔 LinkedIn", "📹 TikTok", "🔎 Snapchat", "🎵 WeChat"]
    ∧ (search_social_media env (parseNumberStep env "+6281234567890").1
        "+6281234567890").length = 11
    ∧ quote "+6281234567890" = "%2B6281234567890"
    ∧ (search_social_media env (parseNumberStep env "+6281234567890").1 "+6281234567890").map
        Prod.snd
      = ["https://www.facebook.com/search/top/?q=%2B6281234567890",
         "https://wa.me/6281234567890",
         "https://x.com/search?q=%2B6281234567890&src=typed_query",
         "https://www.instagram.com/search/top/?q=%2B6281234567890",
         "https://www.truecaller.com/search/%2B6281234567890",
         "https://t.me/6281234567890",
         "viber://add?number=6281234567890",
         "https://www.linkedin.com/search/results/all/?keywords=%2B6281234567890",
         "https://www.tiktok.com/search?q=%2B6281234567890",
         "https://www.snapchat.com/add/6281234567890",
         "weixin://dl/add?6281234567890"]
    ∧ ((search_social_media env (parseNumberStep env "+6281234567890").1
          "+6281234567890").all
        (fun pr => containsSub "6281234567890".data pr.2.data)) = true := by
  have hps : (parseNumberStep env "+6281234567890").1 = some p := by
    simp only [parseNumberStep, hp]
    split <;> rfl
  rw [hps]
  simp only [search_social_media, hf]
  refine ⟨by decide, by decide, by decide, by decide, by decide⟩

set_option maxRecDepth 8000 in
/-- Instance of the C6 theorem at the concrete library model `idEnv`. -/
theorem social_links_eleven_platforms_applied :
    (search_social_media idEnv (parseNumberStep idEnv "+6281234567890").1
      "+6281234567890").length = 11 :=
  (social_links_eleven_platforms idEnv ⟨62, 81234567890, none⟩ (by decide) rfl).2.1

/-! ## Claim C7 -/

/-- C7: on provider success `google_search` returns exactly the first
`num_results` yielded URLs (so never more than the bound), and on provider
failure it returns a single-element list whose element carries the
`"Error"` marker, instead of raising. -/
theorem google_search_bound_and_failure (parsed : Option ParsedNumber) (p : ParsedNumber)
    (n : Nat) (urls : List String) (msg : String) (hp : parsed = some p) :
    google_search parsed n (.ok urls) = urls.take n
    ∧ (google_search parsed n (.ok urls)).length ≤ n
    ∧ google_search parsed n (.fail msg) = ["Error: Google search failed - " ++ msg]
    ∧ (google_search parsed n (.fail msg)).length = 1
    ∧ containsSub "Error".data ("Error: Google search failed - " ++ msg).data = true := by
  subst hp
  refine ⟨rfl, List.length_take_le n urls, rfl, rfl, ?_⟩
  obtain ⟨m⟩ := msg
  apply containsSub_of_isPrefixOf
  show "Error".data.isPrefixOf ("Error: Google search failed - ".data ++ m) = true
  have e : "Error: Google search failed - ".data
      = "Error".data ++ ": Google search failed - ".data := by decide
  rw [e, List.append_assoc]
  exact isPrefixOf_append_self _ _

/-- Instance of the C7 theorem at concrete inputs (six URLs yielded,
bound 5). -/
theorem google_search_bound_and_failure_applied :
    google_search (some ⟨62, 81234567890, none⟩) 5
        (.ok ["u1", "u2", "u3", "u4", "u5", "u6"])
      = ["u1", "u2", "u3", "u4", "u5", "u6"].take 5
    ∧ google_search (some ⟨62, 81234567890, none⟩) 5 (.fail "HTTP 429")
      = ["Error: Google search failed - HTTP 429"] :=
  ⟨(google_search_bound_and_failure (some ⟨62, 81234567890, none⟩) ⟨62, 81234567890, none⟩ 5
      ["u1", "u2", "u3", "u4", "u5", "u6"] "HTTP 429" rfl).1,
   (google_search_bound_and_failure (some ⟨62, 81234567890, none⟩) ⟨62, 81234567890, none⟩ 5
      ["u1", "u2", "u3", "u4", "u5", "u6"] "HTTP 429" rfl).2.2.1⟩

/-! ## Claim C8 -/

/-- C8 counterexample: for the French number `+33123456789` the NATIONAL
format is `"01 23 45 67 89"`, whose last four characters are `"7 89"` — so
the fabricated email local-part is `"user7 89"`, which is not built from
the last 4 digits (`"6789"`) of the national number. -/
theorem reverse_lookup_email_not_last_digits :
    reverse_lookup frEnv (some ⟨33, 123456789, none⟩)
      = ["Possible business: 01 23 45 67 89 Services",
         "Potential contact: John Doe (via public records)",
         "Linked profile: user7 89@example.com"]
    ∧ last_four_digits "01 23 45 67 89" = "6789"
    ∧ ("Linked profile: user7 89@example.com" : String)
      ≠ "Linked profile: user" ++ last_four_digits "01 23 45 67 89" ++ "@example.com" :=
  ⟨by decide, by decide, by decide⟩

/-- C8 (amended): for every successfully parsed number, `reverse_lookup`
deterministically returns exactly three template strings with no external
calls: a fabricated business guess embedding the national-format number, a
hardcoded placeholder contact name, and a fabricated email whose local-part
is `"user"` followed by the last four characters of the national-format
string — which are the last 4 digits of the national number exactly when
those four characters are all digits. -/
theorem reverse_lookup_three_templates (env : PhoneEnv) (parsed : Option ParsedNumber)
    (p : ParsedNumber) (hp : parsed = some p) :
    reverse_lookup env parsed
      = ["Possible business: " ++ env.formatNational p ++ " Services",
         "Potential contact: John Doe (via public records)",
         "Linked profile: user" ++ pySliceLast4 (env.formatNational p) ++ "@example.com"]
    ∧ (reverse_lookup env parsed).length = 3
    ∧ (((env.formatNational p).data.drop ((env.formatNational p).data.length - 4)).all
          Char.isDigit = true →
        pySliceLast4 (env.formatNational p) = last_four_digits (env.formatNational p)) := by
  subst hp
  exact ⟨rfl, rfl, fun h => pySliceLast4_eq_last_four_digits _ h⟩

/-- Instance of the amended C8 theorem at the concrete library model
`idEnv` (national format `"0812-3456-7890"`, whose last four characters are
the digits `7890`). -/
theorem reverse_lookup_three_templates_applied :
    reverse_lookup idEnv (some ⟨62, 81234567890, none⟩)
      = ["Possible business: 0812-3456-7890 Services",
         "Potential contact: John Doe (via public records)",
         "Linked profile: user7890@example.com"] := by
  have h := (reverse_lookup_three_templates idEnv (some ⟨62, 81234567890, none⟩)
    ⟨62, 81234567890, none⟩ rfl).1
  rw [h]
  decide

/-! ## Claim C10 -/

/-- C10: the digits-only number used in the breach-API URL and in the
WhatsApp, Telegram, Viber, Snapchat and WeChat links is computed from the
raw input string by removing only `'+'` and `' '` characters; every other
character of the input (dashes, parentheses, letters) survives into
`clean_number`, which is embedded verbatim in those URLs. -/
theorem clean_number_strips_only_plus_and_space (phone : String) (c : Char)
    (hc : c ∈ phone.data) (h1 : c ≠ '+') (h2 : c ≠ ' ') :
    clean_number phone = ⟨phone.data.filter (fun a => a != ' ' && a != '+')⟩
    ∧ c ∈ (clean_number phone).data
    ∧ (∀ key net, (check_breaches phone (some key) net).2
        = some ("https://haveibeenpwned.com/api/v3/breachedaccount/" ++ clean_number phone
                ++ "?truncateResponse=false"))
    ∧ (∀ env p, (search_social_media env (some p) phone).map Prod.snd
        = ["https://www.facebook.com/search/top/?q=" ++ quote (env.formatE164 p),
           "https://wa.me/" ++ clean_number phone,
           "https://x.com/search?q=" ++ quote (env.formatE164 p) ++ "&src=typed_query",
           "https://www.instagram.com/search/top/?q=" ++ quote (env.formatE164 p),
           "https://www.truecaller.com/search/" ++ quote (env.formatE164 p),
           "https://t.me/" ++ clean_number phone,
           "viber://add?number=" ++ clean_number phone,
           "https://www.linkedin.com/search/results/all/?keywords="
             ++ quote (env.formatE164 p),
           "https://www.tiktok.com/search?q=" ++ quote (env.formatE164 p),
           "https://www.snapchat.com/add/" ++ clean_number phone,
           "weixin://dl/add?" ++ clean_number phone]) := by
  refine ⟨clean_number_filter phone, ?_, fun key net => check_breaches_request_url phone key net,
    fun env p => rfl⟩
  rw [clean_number_filter]
  show c ∈ List.filter _ phone.data
  rw [List.mem_filter]
  exact ⟨hc, by simp [h1, h2]⟩

/-- Instance of the C10 theorem: the parenthesis of the input
`"+62 (812) 345-6789x"` survives into the cleaned number used in the
URLs. -/
theorem clean_number_strips_only_plus_and_space_applied :
    '(' ∈ (clean_number "+62 (812) 345-6789x").data :=
  (clean_number_strips_only_plus_and_space "+62 (812) 345-6789x" '(' (by decide) (by decide)
    (by decide)).2.1

end CentTR
